import Mathlib

/-!
Shallow embedding of the coordinate-normalization utility
(`src/lib/utils/coordinates.ts`) and of the map synchronization effects of
the Naver map component (`src/components/naver-map.tsx`, with the alternate
version of the component preserved in `src/unnamed/part_000`).

JavaScript numbers are modelled by `JSNum`: `NaN`, signed infinities, and
finite values taken as exact rationals (no floating-point rounding).
Comparison operators follow IEEE semantics: every comparison with `NaN`
is false.
-/

/-- Model of a JavaScript number: `NaN`, `Infinity`/`-Infinity`, or a
finite value (modelled as an exact rational). -/
inductive JSNum where
  | nan : JSNum
  | inf (pos : Bool) : JSNum
  | fin (q : ℚ) : JSNum
deriving DecidableEq, Repr

/-- JavaScript `a <= b` (false whenever either side is `NaN`). -/
def jsLe (a b : JSNum) : Bool :=
  match a, b with
  | .nan, _ => false
  | _, .nan => false
  | .inf false, _ => true
  | _, .inf true => true
  | .inf true, _ => false
  | .fin _, .inf false => false
  | .fin q, .fin r => decide (q ≤ r)

/-- JavaScript `a < b` (false whenever either side is `NaN`). -/
def jsLt (a b : JSNum) : Bool :=
  match a, b with
  | .nan, _ => false
  | _, .nan => false
  | .inf true, _ => false
  | _, .inf true => true
  | .inf false, .inf false => false
  | .inf false, .fin _ => true
  | .fin _, .inf false => false
  | .fin q, .fin r => decide (q < r)

/-- JavaScript `Math.abs`. -/
def jsAbs (a : JSNum) : JSNum :=
  match a with
  | .nan => .nan
  | .inf _ => .inf true
  | .fin q => .fin |q|

/-- JavaScript division by the positive constant `10000000`
(`x / 10000000`): `NaN` and infinities are preserved. -/
def jsDiv10M (a : JSNum) : JSNum :=
  match a with
  | .nan => .nan
  | .inf s => .inf s
  | .fin q => .fin (q / 10000000)

/-- JavaScript subtraction `a - b`. -/
def jsSub (a b : JSNum) : JSNum :=
  match a, b with
  | .nan, _ => .nan
  | _, .nan => .nan
  | .inf s, .inf t => if s = t then .nan else .inf s
  | .inf s, .fin _ => .inf s
  | .fin _, .inf t => .inf !t
  | .fin q, .fin r => .fin (q - r)

/-- JavaScript `isNaN` on a number. -/
def jsIsNaN (a : JSNum) : Bool :=
  match a with
  | .nan => true
  | _ => false

/-- JavaScript strict equality with zero (`a === 0`; `NaN === 0` is false). -/
def jsEqZero (a : JSNum) : Bool :=
  match a with
  | .fin q => decide (q = 0)
  | _ => false

/-- JavaScript `Number.isFinite`. -/
def JSNum.isFinite (a : JSNum) : Bool :=
  match a with
  | .fin _ => true
  | _ => false

/-- Numeric value of a list of decimal digit characters. -/
def digitsVal (l : List Char) : ℕ :=
  l.foldl (fun a c => a * 10 + (c.toNat - 48)) 0

/-- Exponent part of a decimal literal after the `e`/`E` marker: an optional
sign followed by digits; if no digits follow, the exponent part is invalid
and (as in `parseFloat`) is ignored, contributing exponent `0`. -/
def expPartVal (cs : List Char) : ℤ :=
  let (sgn, cs1) :=
    match cs with
    | '-' :: rest => ((-1 : ℤ), rest)
    | '+' :: rest => ((1 : ℤ), rest)
    | _ => ((1 : ℤ), cs)
  let ds := cs1.takeWhile Char.isDigit
  if ds = [] then 0 else sgn * (digitsVal ds : ℤ)

/-- Model of JavaScript `parseFloat`: skip leading whitespace, read an
optional sign, then either the literal `Infinity` or the longest decimal
mantissa (digits, optional decimal point and fraction digits) with an
optional exponent part; return `NaN` when no digits can be read. -/
def jsParseFloat (s : String) : JSNum :=
  let cs := s.toList.dropWhile (fun c => c = ' ' ∨ c = '\t' ∨ c = '\n' ∨ c = '\r')
  let (sgn, cs0) :=
    match cs with
    | '-' :: rest => ((-1 : ℚ), rest)
    | '+' :: rest => ((1 : ℚ), rest)
    | _ => ((1 : ℚ), cs)
  match cs0 with
  | 'I' :: 'n' :: 'f' :: 'i' :: 'n' :: 'i' :: 't' :: 'y' :: _ =>
    .inf (decide (sgn = 1))
  | _ =>
    let intPart := cs0.takeWhile Char.isDigit
    let cs1 := cs0.dropWhile Char.isDigit
    let (fracPart, cs2) :=
      match cs1 with
      | '.' :: rest => (rest.takeWhile Char.isDigit, rest.dropWhile Char.isDigit)
      | _ => ([], cs1)
    if intPart = [] ∧ fracPart = [] then .nan
    else
      let mant : ℚ :=
        (digitsVal intPart : ℚ) + (digitsVal fracPart : ℚ) / (10 : ℚ) ^ fracPart.length
      let e : ℤ :=
        match cs2 with
        | 'e' :: rest => expPartVal rest
        | 'E' :: rest => expPartVal rest
        | _ => 0
      .fin (sgn * mant * (10 : ℚ) ^ e)

/-- An argument of `toWgs84FromKTO`: `string | number`. -/
inductive JSVal where
  | num (n : JSNum) : JSVal
  | str (s : String) : JSVal
deriving DecidableEq, Repr

/-- Argument parsing of `toWgs84FromKTO`
(`typeof v === "number" ? v : parseFloat(String(v || "0")) || 0`):
a number is used as is; a string (the empty string replaced by `"0"`)
is parsed with `parseFloat`, a `NaN` result falling back to `0`. -/
def parseCoordArg (v : JSVal) : JSNum :=
  match v with
  | .num n => n
  | .str s =>
    match jsParseFloat (if s = "" then "0" else s) with
    | .nan => .fin 0
    | n => n

/-- `x >= KOREA_LNG_MIN && x <= KOREA_LNG_MAX && y >= KOREA_LAT_MIN &&
y <= KOREA_LAT_MAX` with the constants 124, 132, 33, 38.6. -/
def inKoreaBox (x y : JSNum) : Bool :=
  jsLe (.fin 124) x && jsLe x (.fin 132) && jsLe (.fin 33) y && jsLe y (.fin (193/5))

/-- `Math.abs(x) >= 1000000 || Math.abs(y) >= 1000000`. -/
def bigScale (x y : JSNum) : Bool :=
  jsLe (.fin 1000000) (jsAbs x) || jsLe (.fin 1000000) (jsAbs y)

/-- Result record of `toWgs84FromKTO`: `{ lng, lat, valid }`. -/
structure Wgs84Result where
  lng : JSNum
  lat : JSNum
  valid : Bool
deriving DecidableEq, Repr

/-- Validation step of `toWgs84FromKTO` (lines 86-92 of
`src/lib/utils/coordinates.ts`): finite, non-zero and within world
geographic bounds. -/
def validityFlag (lng lat : JSNum) : Bool :=
  let isFin := lat.isFinite && lng.isFinite
  let isNonZero := !jsEqZero lat && !jsEqZero lng
  let isInWorldRange :=
    jsLe (.fin (-90)) lat && jsLe lat (.fin 90) &&
    jsLe (.fin (-180)) lng && jsLe lng (.fin 180)
  isFin && isNonZero && isInWorldRange

/-- `toWgs84FromKTO` from `src/lib/utils/coordinates.ts`: parse both
arguments, then pick a conversion branch (already in the Korea box /
scaled integer of magnitude at least 1,000,000 / small-value division with
a fallback to the raw values), then compute the validity flag. -/
def toWgs84FromKTO (mapx mapy : JSVal) : Wgs84Result :=
  let x := parseCoordArg mapx
  let y := parseCoordArg mapy
  let p : JSNum × JSNum :=
    if inKoreaBox x y then (x, y)
    else if bigScale x y then (jsDiv10M x, jsDiv10M y)
    else
      let lng := jsDiv10M x
      let lat := jsDiv10M y
      if (jsLt lng (.fin 124) || jsLt (.fin 132) lng) &&
          (jsLe (.fin 124) x && jsLe x (.fin 132)) then (x, y)
      else (lng, lat)
  { lng := p.1, lat := p.2, valid := validityFlag p.1 p.2 }

/-- The conversion stage of `toWgs84FromKTO` in isolation (lines 39-75 of
`src/lib/utils/coordinates.ts`): the `(lng, lat)` pair as computed before
the validity flag is derived, used to state that invalid results are
returned unsanitized. -/
def conversionStage (x y : JSNum) : JSNum × JSNum :=
  if inKoreaBox x y then (x, y)
  else if bigScale x y then (jsDiv10M x, jsDiv10M y)
  else
    let lng := jsDiv10M x
    let lat := jsDiv10M y
    if (jsLt lng (.fin 124) || jsLt (.fin 132) lng) &&
        (jsLe (.fin 124) x && jsLe x (.fin 132)) then (x, y)
    else (lng, lat)

/-- Compatibility wrapper `convertKATECToWGS84` (string arguments): calls
`toWgs84FromKTO` and returns only `(lng, lat)`, dropping `valid`. -/
def convertKATECToWGS84 (mapx mapy : String) : JSNum × JSNum :=
  let r := toWgs84FromKTO (.str mapx) (.str mapy)
  (r.lng, r.lat)

/-- The fields of a `TourItem` record used by the map component: the unique
record id, the raw KTO coordinate strings, and the display fields shown in
the info overlay. -/
structure TourItem where
  contentid : String
  contenttypeid : String
  title : String
  addr1 : String
  mapx : String
  mapy : String
deriving DecidableEq, Repr

/-- A live marker entry as held by the component (`markerMapRef` stores
`(marker, tour)` keyed by `contentid`; the marker handle itself carries the
position it was created at). -/
structure MarkerEntry where
  contentid : String
  lat : JSNum
  lng : JSNum
deriving DecidableEq, Repr

/-- The state owned by the map component that the claims are about:
viewport center (as a `(lat, lng)` pair, the argument order of
`naver.maps.LatLng`), zoom level, the live marker collection in creation
order, and the id of the marker the info overlay is currently anchored to
(`none` when closed). -/
structure MapState where
  center : JSNum × JSNum
  zoom : ℚ
  markers : List MarkerEntry
  overlay : Option String
deriving DecidableEq, Repr

/-- An observable marker-handle action performed by the rendering effect:
releasing an existing handle (`marker.setMap(null)`) or creating a new
one (`new naver.maps.Marker`). -/
inductive MarkerAction where
  | release (contentid : String) : MarkerAction
  | create (contentid : String) : MarkerAction
deriving DecidableEq, Repr

/-- The filter of the marker rendering effect
(`validTours = tours.filter(...)`): keep a record when `toWgs84FromKTO` on
its raw coordinates reports `valid` and both components are finite. -/
def validCoord (t : TourItem) : Bool :=
  let r := toWgs84FromKTO (.str t.mapx) (.str t.mapy)
  r.valid && r.lat.isFinite && r.lng.isFinite

/-- The marker entry created for a record: keyed by `contentid`, positioned
at the record's normalized coordinate. -/
def mkEntry (t : TourItem) : MarkerEntry :=
  let r := toWgs84FromKTO (.str t.mapx) (.str t.mapy)
  { contentid := t.contentid, lat := r.lat, lng := r.lng }

/-- The marker rendering effect of `src/components/naver-map.tsx` (lines
484-586) on a data-set-replace event: when the map is not ready, nothing
happens; otherwise every existing marker handle is released and the marker
map cleared, then one marker is created per record of the new list whose
coordinate passes `validCoord`, in list order. The returned trace records
the handle actions in the order the code performs them. -/
def renderMarkersEffect (mapReady : Bool) (st : MapState) (tours : List TourItem) :
    MapState × List MarkerAction :=
  if mapReady = false then (st, [])
  else
    let releases := st.markers.map (fun m => MarkerAction.release m.contentid)
    let newMarkers := (tours.filter validCoord).map mkEntry
    ({ st with markers := newMarkers },
      releases ++ newMarkers.map (fun m => MarkerAction.create m.contentid))

/-- Lookup in `markerMapRef` (a JavaScript `Map` keyed by `contentid`,
written in creation order): `get` returns the value of the last `set` for
that key. -/
def markerMapGet (markers : List MarkerEntry) (contentid : String) : Option MarkerEntry :=
  markers.reverse.find? (fun m => m.contentid == contentid)

/-- The selection effect of `src/components/naver-map.tsx` (lines 589-628):
when a record id is selected on a ready map, look its marker up in the
marker map; if absent, do nothing; if present, set the viewport center to
the marker's position, set the zoom level to 15, and open the info overlay
anchored to that marker. -/
def selectTourEffect (mapReady : Bool) (st : MapState) (selectedTourId : Option String) :
    MapState :=
  match selectedTourId with
  | none => st
  | some id =>
    if mapReady = false then st
    else
      match markerMapGet st.markers id with
      | none => st
      | some m =>
        { st with center := (m.lat, m.lng), zoom := 15, overlay := some m.contentid }

/-- The selection effect of the alternate component version
(`src/unnamed/part_000`, lines 641-677): look the record up in the tours
list; if absent or its converted coordinate is `NaN` or zero, do nothing;
otherwise set the center, set the zoom to `Math.max(getZoom(), 15)`, and
open the info overlay on the first marker whose position is within `0.0001`
of the converted coordinate in both components (overlay untouched when no
such marker exists). -/
def selectTourEffectAlt (st : MapState) (tours : List TourItem) (selectedTourId : Option String) :
    MapState :=
  match selectedTourId with
  | none => st
  | some id =>
    match tours.find? (fun t => t.contentid == id) with
    | none => st
    | some tour =>
      let c := convertKATECToWGS84 tour.mapx tour.mapy
      let lng := c.1
      let lat := c.2
      if jsIsNaN lng || jsIsNaN lat || jsEqZero lng || jsEqZero lat then st
      else
        let st1 := { st with center := (lat, lng), zoom := max st.zoom 15 }
        match st.markers.find? (fun m =>
            jsLt (jsAbs (jsSub m.lat lat)) (.fin (1/10000)) &&
            jsLt (jsAbs (jsSub m.lng lng)) (.fin (1/10000))) with
        | some m => { st1 with overlay := some m.contentid }
        | none => st1

@[simp] theorem jsLe_fin_fin (p q : ℚ) : jsLe (.fin p) (.fin q) = decide (p ≤ q) := rfl

@[simp] theorem jsLt_fin_fin (p q : ℚ) : jsLt (.fin p) (.fin q) = decide (p < q) := rfl

@[simp] theorem jsAbs_fin (q : ℚ) : jsAbs (.fin q) = .fin |q| := rfl

@[simp] theorem jsDiv10M_fin (q : ℚ) : jsDiv10M (.fin q) = .fin (q / 10000000) := rfl

@[simp] theorem jsEqZero_fin (q : ℚ) : jsEqZero (.fin q) = decide (q = 0) := rfl

@[simp] theorem isFinite_fin (q : ℚ) : (JSNum.fin q).isFinite = true := rfl

@[simp] theorem parseCoordArg_num (n : JSNum) : parseCoordArg (.num n) = n := rfl

theorem toWgs84_conv (mapx mapy : JSVal) :
    toWgs84FromKTO mapx mapy =
      { lng := (conversionStage (parseCoordArg mapx) (parseCoordArg mapy)).1,
        lat := (conversionStage (parseCoordArg mapx) (parseCoordArg mapy)).2,
        valid := validityFlag (conversionStage (parseCoordArg mapx) (parseCoordArg mapy)).1
          (conversionStage (parseCoordArg mapx) (parseCoordArg mapy)).2 } := rfl

theorem conversionStage_box (x y : JSNum) (h : inKoreaBox x y = true) :
    conversionStage x y = (x, y) := by
  simp [conversionStage, h]

theorem conversionStage_big (x y : JSNum) (hbox : inKoreaBox x y = false)
    (h : bigScale x y = true) : conversionStage x y = (jsDiv10M x, jsDiv10M y) := by
  simp [conversionStage, hbox, h]

theorem conversionStage_small (x y : JSNum) (hbox : inKoreaBox x y = false)
    (hbig : bigScale x y = false) :
    conversionStage x y =
      if (jsLe (.fin 124) x && jsLe x (.fin 132)) = true then (x, y)
      else (jsDiv10M x, jsDiv10M y) := by
  cases x with
  | nan => simp [conversionStage, hbox, hbig, jsLe, jsLt, jsDiv10M]
  | inf s => exfalso; simp [bigScale, jsAbs, jsLe] at hbig
  | fin q =>
    have hq : ¬ (1000000 : ℚ) ≤ |q| := by
      intro hc
      simp [bigScale, jsAbs, jsLe_fin_fin, hc] at hbig
    have hlt : q / 10000000 < 124 := by
      rw [not_le, abs_lt] at hq
      linarith [hq.1, hq.2]
    simp [conversionStage, hbox, hbig, jsLt_fin_fin, hlt]

theorem validityFlag_iff (lng lat : JSNum) :
    validityFlag lng lat = true ↔
      ∃ g l : ℚ, lng = .fin g ∧ lat = .fin l ∧ g ≠ 0 ∧ l ≠ 0 ∧
        -180 ≤ g ∧ g ≤ 180 ∧ -90 ≤ l ∧ l ≤ 90 := by
  cases lng with
  | nan => simp [validityFlag, JSNum.isFinite]
  | inf s => simp [validityFlag, JSNum.isFinite]
  | fin g =>
    cases lat with
    | nan => simp [validityFlag, JSNum.isFinite]
    | inf s => simp [validityFlag, JSNum.isFinite]
    | fin l =>
      simp only [validityFlag, JSNum.isFinite, jsEqZero_fin, jsLe_fin_fin,
        Bool.and_eq_true, Bool.not_eq_true', decide_eq_false_iff_not,
        decide_eq_true_eq, JSNum.fin.injEq]
      aesop

theorem parseCoordArg_str_abc : parseCoordArg (.str "abc") = .fin 0 := rfl

theorem parseCoordArg_str_xyz : parseCoordArg (.str "xyz") = .fin 0 := rfl

theorem parseCoordArg_str_127 : parseCoordArg (.str "127") = .fin 127 := by
  have h : parseCoordArg (.str "127")
      = .fin ((1 : ℚ) * (((127 : ℕ) : ℚ) + ((0 : ℕ) : ℚ) / (10 : ℚ) ^ (0 : ℕ)) * (10 : ℚ) ^ (0 : ℤ)) := rfl
  rw [h]; norm_num

theorem parseCoordArg_str_37 : parseCoordArg (.str "37") = .fin 37 := by
  have h : parseCoordArg (.str "37")
      = .fin ((1 : ℚ) * (((37 : ℕ) : ℚ) + ((0 : ℕ) : ℚ) / (10 : ℚ) ^ (0 : ℕ)) * (10 : ℚ) ^ (0 : ℤ)) := rfl
  rw [h]; norm_num

/-- C4: `toWgs84FromKTO` is a total function (the embedding is a Lean
function, so it cannot throw), and its validity flag is true exactly when
the returned longitude and latitude are finite, non-zero and inside world
geographic bounds; the regional box plays no role in the flag. -/
theorem toWgs84_valid_iff (mapx mapy : JSVal) :
    (toWgs84FromKTO mapx mapy).valid = true ↔
      ∃ g l : ℚ, (toWgs84FromKTO mapx mapy).lng = .fin g ∧
        (toWgs84FromKTO mapx mapy).lat = .fin l ∧ g ≠ 0 ∧ l ≠ 0 ∧
        -180 ≤ g ∧ g ≤ 180 ∧ -90 ≤ l ∧ l ≤ 90 := by
  rw [toWgs84_conv]
  exact validityFlag_iff _ _

/-- C10: when the validity flag is false, the returned `lng` and `lat` are
exactly the values computed by the conversion stage, with no clamping,
zeroing or sentinel substitution. -/
theorem toWgs84_unsanitized_on_invalid (mapx mapy : JSVal)
    (_h : (toWgs84FromKTO mapx mapy).valid = false) :
    (toWgs84FromKTO mapx mapy).lng
        = (conversionStage (parseCoordArg mapx) (parseCoordArg mapy)).1 ∧
    (toWgs84FromKTO mapx mapy).lat
        = (conversionStage (parseCoordArg mapx) (parseCoordArg mapy)).2 :=
  ⟨rfl, rfl⟩

/-- Witness for C10 at the concrete input `(NaN, NaN)`, whose result is
invalid. -/
theorem toWgs84_unsanitized_on_invalid_witness :
    (toWgs84FromKTO (.num .nan) (.num .nan)).lng
        = (conversionStage (parseCoordArg (.num .nan)) (parseCoordArg (.num .nan))).1 ∧
    (toWgs84FromKTO (.num .nan) (.num .nan)).lat
        = (conversionStage (parseCoordArg (.num .nan)) (parseCoordArg (.num .nan))).2 :=
  toWgs84_unsanitized_on_invalid (.num .nan) (.num .nan) rfl

/-- C6: a parsed raw pair already inside the regional bounding box is
returned unchanged and marked valid. -/
theorem toWgs84_regional_passthrough (mapx mapy : JSVal) (a b : ℚ)
    (hx : parseCoordArg mapx = .fin a) (hy : parseCoordArg mapy = .fin b)
    (h1 : 124 ≤ a) (h2 : a ≤ 132) (h3 : 33 ≤ b) (h4 : b ≤ 193/5) :
    toWgs84FromKTO mapx mapy = ⟨.fin a, .fin b, true⟩ := by
  have hbox : inKoreaBox (.fin a) (.fin b) = true := by
    simp only [inKoreaBox, jsLe_fin_fin, Bool.and_eq_true, decide_eq_true_eq]
    exact ⟨⟨⟨h1, h2⟩, h3⟩, h4⟩
  have hval : validityFlag (.fin a) (.fin b) = true := by
    rw [validityFlag_iff]
    exact ⟨a, b, rfl, rfl, by linarith, by linarith, by linarith, by linarith,
      by linarith, by linarith⟩
  rw [toWgs84_conv, hx, hy, conversionStage_box _ _ hbox]
  simp [hval]

/-- Witness for C6 at the concrete parsed pair `(127, 37)`. -/
theorem toWgs84_regional_passthrough_witness :
    toWgs84FromKTO (.num (.fin 127)) (.num (.fin 37)) = ⟨.fin 127, .fin 37, true⟩ :=
  toWgs84_regional_passthrough (.num (.fin 127)) (.num (.fin 37)) 127 37 rfl rfl
    (by norm_num) (by norm_num) (by norm_num) (by norm_num)

/-- C7 counterexample: for the parsed pair `(Infinity, 2000000)` the
magnitude condition holds and both values are divided by 10,000,000, but
the resulting longitude is `Infinity`, not finite. -/
theorem toWgs84_bigscale_cex :
    bigScale (.inf true) (.fin 2000000) = true ∧
    (toWgs84FromKTO (.num (.inf true)) (.num (.fin 2000000))).lng = .inf true ∧
    (toWgs84FromKTO (.num (.inf true)) (.num (.fin 2000000))).lat = .fin (1/5) ∧
    (toWgs84FromKTO (.num (.inf true)) (.num (.fin 2000000))).lng.isFinite = false := by
  have hbox : inKoreaBox (.inf true) (.fin 2000000) = false := by
    simp [inKoreaBox, jsLe]
  have hbig : bigScale (.inf true) (.fin 2000000) = true := by
    simp [bigScale, jsAbs, jsLe]
  refine ⟨hbig, ?_, ?_, ?_⟩
  all_goals rw [toWgs84_conv]
  all_goals simp [conversionStage_big _ _ hbox hbig, jsDiv10M, JSNum.isFinite]
  all_goals norm_num

/-- C7 amended: for every raw pair whose parsed values are finite and have
either magnitude at least 1,000,000, `toWgs84FromKTO` returns both values
divided by 10,000,000 and the results are finite. -/
theorem toWgs84_bigscale_divides (mapx mapy : JSVal) (a b : ℚ)
    (hx : parseCoordArg mapx = .fin a) (hy : parseCoordArg mapy = .fin b)
    (h : 1000000 ≤ |a| ∨ 1000000 ≤ |b|) :
    (toWgs84FromKTO mapx mapy).lng = .fin (a / 10000000) ∧
    (toWgs84FromKTO mapx mapy).lat = .fin (b / 10000000) ∧
    (toWgs84FromKTO mapx mapy).lng.isFinite = true ∧
    (toWgs84FromKTO mapx mapy).lat.isFinite = true := by
  have hbox : inKoreaBox (.fin a) (.fin b) = false := by
    simp only [inKoreaBox, jsLe_fin_fin, Bool.and_eq_true, decide_eq_true_eq,
      Bool.eq_false_iff, ne_eq]
    intro hc
    obtain ⟨⟨⟨ha1, ha2⟩, hb1⟩, hb2⟩ := hc
    rcases h with hA | hB
    · rcases le_abs.mp hA with h' | h' <;> linarith
    · rcases le_abs.mp hB with h' | h' <;> linarith
  have hbig : bigScale (.fin a) (.fin b) = true := by
    simp only [bigScale, jsAbs_fin, jsLe_fin_fin, Bool.or_eq_true, decide_eq_true_eq]
    exact h
  rw [toWgs84_conv, hx, hy, conversionStage_big _ _ hbox hbig]
  simp [jsDiv10M, JSNum.isFinite]

/-- Witness for C7 (amended) at the concrete parsed pair
`(1269780000, 375665000)`. -/
theorem toWgs84_bigscale_divides_witness :
    (toWgs84FromKTO (.num (.fin 1269780000)) (.num (.fin 375665000))).lng
        = .fin (1269780000 / 10000000) ∧
    (toWgs84FromKTO (.num (.fin 1269780000)) (.num (.fin 375665000))).lat
        = .fin (375665000 / 10000000) ∧
    (toWgs84FromKTO (.num (.fin 1269780000)) (.num (.fin 375665000))).lng.isFinite = true ∧
    (toWgs84FromKTO (.num (.fin 1269780000)) (.num (.fin 375665000))).lat.isFinite = true :=
  toWgs84_bigscale_divides (.num (.fin 1269780000)) (.num (.fin 375665000))
    1269780000 375665000 rfl rfl (by left; rw [abs_of_pos] <;> norm_num)

/-- C3 counterexample: the parsed pair `(127, 200)` reaches the small-value
branch (not in the regional box, both magnitudes below 1,000,000) and its
raw latitude 200 lies outside world bounds, so by the claim the divided
values should be returned; the code instead falls back to the raw values,
because its fallback condition checks only the longitude against the
regional range and never consults world bounds. -/
theorem toWgs84_smallvalue_fallback_cex :
    inKoreaBox (.fin 127) (.fin 200) = false ∧
    bigScale (.fin 127) (.fin 200) = false ∧
    toWgs84FromKTO (.num (.fin 127)) (.num (.fin 200)) = ⟨.fin 127, .fin 200, false⟩ ∧
    ¬ ((200 : ℚ) ≤ 90) ∧ JSNum.fin 127 ≠ JSNum.fin (127 / 10000000) := by
  have hbox : inKoreaBox (.fin 127) (.fin 200) = false := by
    simp only [inKoreaBox, jsLe_fin_fin]
    norm_num
  have hbig : bigScale (.fin 127) (.fin 200) = false := by
    simp only [bigScale, jsAbs_fin, jsLe_fin_fin]
    norm_num
  refine ⟨hbox, hbig, ?_, by norm_num, by simp only [ne_eq, JSNum.fin.injEq]; norm_num⟩
  rw [toWgs84_conv, parseCoordArg_num, parseCoordArg_num,
    conversionStage_small _ _ hbox hbig]
  have hcond : (jsLe (.fin 124) (.fin (127 : ℚ)) && jsLe (.fin (127 : ℚ)) (.fin 132)) = true := by
    simp only [jsLe_fin_fin, Bool.and_eq_true, decide_eq_true_eq]
    norm_num
  rw [if_pos hcond]
  have hval : validityFlag (.fin (127 : ℚ)) (.fin (200 : ℚ)) = false := by
    simp only [validityFlag, isFinite_fin, jsEqZero_fin, jsLe_fin_fin]
    norm_num
  simp [hval]

/-- C3 amended: in the small-value branch (parsed pair neither in the
regional box nor of magnitude at least 1,000,000 in either component), both
values are divided by 10,000,000, and the raw values are used unchanged
exactly when the raw longitude lies within the regional longitude range
[124, 132] (the divided longitude is then always below the range); neither
the raw latitude nor world bounds are consulted. -/
theorem toWgs84_smallvalue_fallback_rule (x y : JSNum)
    (hbox : inKoreaBox x y = false) (hbig : bigScale x y = false) :
    ((toWgs84FromKTO (.num x) (.num y)).lng, (toWgs84FromKTO (.num x) (.num y)).lat) =
      if (jsLe (.fin 124) x && jsLe x (.fin 132)) = true then (x, y)
      else (jsDiv10M x, jsDiv10M y) := by
  rw [toWgs84_conv, parseCoordArg_num, parseCoordArg_num,
    conversionStage_small _ _ hbox hbig]

/-- Witness for C3 (amended) at the concrete parsed pair `(127, 200)`,
where the fallback fires. -/
theorem toWgs84_smallvalue_fallback_rule_witness :
    ((toWgs84FromKTO (.num (.fin 127)) (.num (.fin 200))).lng,
        (toWgs84FromKTO (.num (.fin 127)) (.num (.fin 200))).lat) =
      if (jsLe (.fin 124) (.fin (127 : ℚ)) && jsLe (.fin (127 : ℚ)) (.fin 132)) = true
      then (JSNum.fin 127, JSNum.fin 200)
      else (jsDiv10M (.fin 127), jsDiv10M (.fin 200)) :=
  toWgs84_smallvalue_fallback_rule (.fin 127) (.fin 200)
    (by simp only [inKoreaBox, jsLe_fin_fin]; norm_num)
    (by simp only [bigScale, jsAbs_fin, jsLe_fin_fin]; norm_num)

/-- C5 counterexample: the raw pair `(2000000, 2000000)` normalizes to
`(0.2, 0.2)`, but re-normalizing `(0.2, 0.2)` divides again and yields
`(0.00000002, 0.00000002)`, so normalization is not idempotent on its own
outputs in general. -/
theorem toWgs84_idempotence_cex :
    toWgs84FromKTO (.num (.fin 2000000)) (.num (.fin 2000000))
        = ⟨.fin (1/5), .fin (1/5), true⟩ ∧
    (toWgs84FromKTO (.num (.fin (1/5))) (.num (.fin (1/5)))).lng = .fin (1/50000000) ∧
    JSNum.fin ((1 : ℚ)/50000000) ≠ .fin (1/5) := by
  have hbox1 : inKoreaBox (.fin 2000000) (.fin 2000000) = false := by
    simp only [inKoreaBox, jsLe_fin_fin]; norm_num
  have hbig1 : bigScale (.fin 2000000) (.fin 2000000) = true := by
    simp only [bigScale, jsAbs_fin, jsLe_fin_fin]; norm_num
  have hbox2 : inKoreaBox (.fin (1/5)) (.fin (1/5)) = false := by
    simp only [inKoreaBox, jsLe_fin_fin]; norm_num
  have hbig2 : bigScale (.fin (1/5)) (.fin (1/5)) = false := by
    simp only [bigScale, jsAbs_fin, jsLe_fin_fin, Bool.or_eq_false_iff,
      decide_eq_false_iff_not, not_le]
    constructor <;> (rw [abs_lt]; constructor <;> norm_num)
  refine ⟨?_, ?_, by simp only [ne_eq, JSNum.fin.injEq]; norm_num⟩
  · simp only [toWgs84_conv, parseCoordArg_num]
    rw [conversionStage_big _ _ hbox1 hbig1]
    have hd : jsDiv10M (.fin 2000000) = .fin (1/5) := by
      rw [jsDiv10M_fin]; norm_num
    have hval : validityFlag (.fin ((1 : ℚ)/5)) (.fin ((1 : ℚ)/5)) = true := by
      rw [validityFlag_iff]
      exact ⟨1/5, 1/5, rfl, rfl, by norm_num, by norm_num, by norm_num, by norm_num,
        by norm_num, by norm_num⟩
    rw [hd, hval]
  · simp only [toWgs84_conv, parseCoordArg_num]
    rw [conversionStage_small _ _ hbox2 hbig2]
    have hcond : (jsLe (.fin 124) (.fin ((1 : ℚ)/5)) && jsLe (.fin ((1 : ℚ)/5)) (.fin 132))
        = false := by
      simp only [jsLe_fin_fin, Bool.and_eq_false_iff, decide_eq_false_iff_not]
      left; norm_num
    rw [if_neg (by rw [hcond]; exact Bool.false_ne_true)]
    rw [jsDiv10M_fin]
    norm_num

/-- Helper: the concrete pair `(127, 37)` is in the regional box and passes
through unchanged. -/
theorem toWgs84_at_127_37 :
    toWgs84FromKTO (.num (.fin 127)) (.num (.fin 37)) = ⟨.fin 127, .fin 37, true⟩ := by
  have hbox : inKoreaBox (.fin 127) (.fin 37) = true := by
    simp only [inKoreaBox, jsLe_fin_fin, Bool.and_eq_true, decide_eq_true_eq]
    norm_num
  rw [toWgs84_conv, parseCoordArg_num, parseCoordArg_num, conversionStage_box _ _ hbox]
  have hval : validityFlag (.fin (127 : ℚ)) (.fin (37 : ℚ)) = true := by
    rw [validityFlag_iff]
    exact ⟨127, 37, rfl, rfl, by norm_num, by norm_num, by norm_num, by norm_num,
      by norm_num, by norm_num⟩
  simp [hval]

/-- C5 amended: re-normalization is the identity on an output whose
longitude lies in the regional longitude range [124, 132] and whose
latitude has magnitude below 1,000,000 (in particular on every output in
the regional box, i.e. on degree-scale regional coordinates); it is not
idempotent on arbitrary outputs. -/
theorem toWgs84_renormalize_fixedpoint (mapx mapy : JSVal) (a b : ℚ)
    (hlng : (toWgs84FromKTO mapx mapy).lng = .fin a)
    (hlat : (toWgs84FromKTO mapx mapy).lat = .fin b)
    (h1 : 124 ≤ a) (h2 : a ≤ 132) (hb : |b| < 1000000) :
    (toWgs84FromKTO (.num ((toWgs84FromKTO mapx mapy).lng))
        (.num ((toWgs84FromKTO mapx mapy).lat))).lng = (toWgs84FromKTO mapx mapy).lng ∧
    (toWgs84FromKTO (.num ((toWgs84FromKTO mapx mapy).lng))
        (.num ((toWgs84FromKTO mapx mapy).lat))).lat = (toWgs84FromKTO mapx mapy).lat := by
  rw [hlng, hlat]
  by_cases hc : 33 ≤ b ∧ b ≤ 193/5
  · have hbox : inKoreaBox (.fin a) (.fin b) = true := by
      simp only [inKoreaBox, jsLe_fin_fin, Bool.and_eq_true, decide_eq_true_eq]
      exact ⟨⟨⟨h1, h2⟩, hc.1⟩, hc.2⟩
    rw [toWgs84_conv, parseCoordArg_num, parseCoordArg_num, conversionStage_box _ _ hbox]
    exact ⟨rfl, rfl⟩
  · have hbox : inKoreaBox (.fin a) (.fin b) = false := by
      simp only [inKoreaBox, jsLe_fin_fin, Bool.and_eq_true, decide_eq_true_eq,
        Bool.eq_false_iff, ne_eq]
      intro hcon
      exact hc ⟨hcon.1.2, hcon.2⟩
    have hbig : bigScale (.fin a) (.fin b) = false := by
      simp only [bigScale, jsAbs_fin, jsLe_fin_fin, Bool.or_eq_false_iff,
        decide_eq_false_iff_not, not_le]
      constructor
      · rw [abs_lt]; constructor <;> linarith
      · exact hb
    rw [toWgs84_conv, parseCoordArg_num, parseCoordArg_num,
      conversionStage_small _ _ hbox hbig]
    have hcond : (jsLe (.fin 124) (.fin a) && jsLe (.fin a) (.fin 132)) = true := by
      simp only [jsLe_fin_fin, Bool.and_eq_true, decide_eq_true_eq]
      exact ⟨h1, h2⟩
    rw [if_pos hcond]
    exact ⟨rfl, rfl⟩

/-- Witness for C5 (amended): the output of normalizing `(127, 37)` is a
fixed point of re-normalization. -/
theorem toWgs84_renormalize_fixedpoint_witness :
    (toWgs84FromKTO (.num ((toWgs84FromKTO (.num (.fin 127)) (.num (.fin 37))).lng))
        (.num ((toWgs84FromKTO (.num (.fin 127)) (.num (.fin 37))).lat))).lng
      = (toWgs84FromKTO (.num (.fin 127)) (.num (.fin 37))).lng ∧
    (toWgs84FromKTO (.num ((toWgs84FromKTO (.num (.fin 127)) (.num (.fin 37))).lng))
        (.num ((toWgs84FromKTO (.num (.fin 127)) (.num (.fin 37))).lat))).lat
      = (toWgs84FromKTO (.num (.fin 127)) (.num (.fin 37))).lat :=
  toWgs84_renormalize_fixedpoint (.num (.fin 127)) (.num (.fin 37)) 127 37
    (by rw [toWgs84_at_127_37]) (by rw [toWgs84_at_127_37])
    (by norm_num) (by norm_num) (by rw [abs_of_pos] <;> norm_num)

theorem toWgs84_str_127_37 :
    toWgs84FromKTO (.str "127") (.str "37") = ⟨.fin 127, .fin 37, true⟩ := by
  have hbox : inKoreaBox (.fin 127) (.fin 37) = true := by
    simp only [inKoreaBox, jsLe_fin_fin, Bool.and_eq_true, decide_eq_true_eq]
    norm_num
  rw [toWgs84_conv, parseCoordArg_str_127, parseCoordArg_str_37,
    conversionStage_box _ _ hbox]
  have hval : validityFlag (.fin (127 : ℚ)) (.fin (37 : ℚ)) = true := by
    rw [validityFlag_iff]
    exact ⟨127, 37, rfl, rfl, by norm_num, by norm_num, by norm_num, by norm_num,
      by norm_num, by norm_num⟩
  simp [hval]

/-- C9: the compatibility wrapper returns exactly the `lng` and `lat`
fields computed by `toWgs84FromKTO` and discards the validity flag; in
particular on the non-numeric input `("abc", "xyz")` it returns `(0, 0)`
even though the underlying result is invalid. -/
theorem convertKATEC_projects :
    (∀ mapx mapy : String,
        (convertKATECToWGS84 mapx mapy).1 = (toWgs84FromKTO (.str mapx) (.str mapy)).lng ∧
        (convertKATECToWGS84 mapx mapy).2 = (toWgs84FromKTO (.str mapx) (.str mapy)).lat) ∧
    convertKATECToWGS84 "abc" "xyz" = (.fin 0, .fin 0) ∧
    (toWgs84FromKTO (.str "abc") (.str "xyz")).valid = false := by
  have hbox : inKoreaBox (.fin 0) (.fin 0) = false := by
    simp only [inKoreaBox, jsLe_fin_fin]; norm_num
  have hbig : bigScale (.fin 0) (.fin 0) = false := by
    simp only [bigScale, jsAbs_fin, jsLe_fin_fin]; norm_num
  have habc : toWgs84FromKTO (.str "abc") (.str "xyz")
      = ⟨.fin 0, .fin 0, validityFlag (.fin ((0 : ℚ)/10000000)) (.fin ((0 : ℚ)/10000000))⟩ := by
    rw [toWgs84_conv, parseCoordArg_str_abc, parseCoordArg_str_xyz,
      conversionStage_small _ _ hbox hbig]
    have hcond : (jsLe (.fin 124) (.fin (0 : ℚ)) && jsLe (.fin (0 : ℚ)) (.fin 132)) = false := by
      simp only [jsLe_fin_fin, Bool.and_eq_false_iff, decide_eq_false_iff_not]
      left; norm_num
    rw [if_neg (by rw [hcond]; exact Bool.false_ne_true), jsDiv10M_fin]
    norm_num
  have hvalf : validityFlag (.fin ((0 : ℚ)/10000000)) (.fin ((0 : ℚ)/10000000)) = false := by
    simp only [validityFlag, isFinite_fin, jsEqZero_fin]
    norm_num
  refine ⟨fun _ _ => ⟨rfl, rfl⟩, ?_, ?_⟩
  · show ((toWgs84FromKTO (.str "abc") (.str "xyz")).lng,
      (toWgs84FromKTO (.str "abc") (.str "xyz")).lat) = (JSNum.fin 0, JSNum.fin 0)
    rw [habc]
  · rw [habc, hvalf]

/-- C8: a selection event for an id with no entry in the marker map leaves
the whole controller state (viewport, markers, overlay) unchanged. -/
theorem selectTour_absent_noop (mapReady : Bool) (st : MapState) (id : String)
    (h : markerMapGet st.markers id = none) :
    selectTourEffect mapReady st (some id) = st := by
  cases mapReady <;> simp [selectTourEffect, h]

/-- Witness for C8 on an empty marker collection. -/
theorem selectTour_absent_noop_witness :
    selectTourEffect true (MapState.mk (.fin 0, .fin 0) 10 [] none) (some "42")
      = MapState.mk (.fin 0, .fin 0) 10 [] none :=
  selectTour_absent_noop true (MapState.mk (.fin 0, .fin 0) 10 [] none) "42" rfl

theorem renderMarkersEffect_ready (st : MapState) (tours : List TourItem) :
    renderMarkersEffect true st tours =
      ({ st with markers := (tours.filter validCoord).map mkEntry },
        st.markers.map (fun m => MarkerAction.release m.contentid) ++
          ((tours.filter validCoord).map mkEntry).map
            (fun m => MarkerAction.create m.contentid)) := rfl

/-- C2: on a data-set-replace event on a ready map, the resulting marker
collection has exactly one marker per valid-coordinate record of the new
set (positioned at its normalized coordinate) and nothing else, every
prior marker handle is released, all releases precede all creations, and
invalid-coordinate records are skipped (the effect is a total function,
so no error is raised). -/
theorem renderMarkers_replace_spec (st : MapState) (tours : List TourItem) :
    (∀ t ∈ tours, validCoord t = true →
        mkEntry t ∈ (renderMarkersEffect true st tours).1.markers) ∧
    (∀ m ∈ (renderMarkersEffect true st tours).1.markers,
        ∃ t ∈ tours, validCoord t = true ∧ m = mkEntry t) ∧
    (renderMarkersEffect true st tours).1.markers.length
        = (tours.filter validCoord).length ∧
    ∃ rs cs, (renderMarkersEffect true st tours).2 = rs ++ cs ∧
      (∀ m ∈ st.markers, MarkerAction.release m.contentid ∈ rs) ∧
      (∀ a ∈ rs, ∃ i, a = MarkerAction.release i) ∧
      (∀ a ∈ cs, ∃ i, a = MarkerAction.create i) := by
  simp only [renderMarkersEffect_ready]
  refine ⟨?_, ?_, ?_, ?_⟩
  · intro t ht hv
    exact List.mem_map_of_mem _ (List.mem_filter.mpr ⟨ht, hv⟩)
  · intro m hm
    obtain ⟨t, htf, rfl⟩ := List.mem_map.mp hm
    obtain ⟨ht, hv⟩ := List.mem_filter.mp htf
    exact ⟨t, ht, hv, rfl⟩
  · exact List.length_map _ _
  · refine ⟨st.markers.map (fun m => MarkerAction.release m.contentid),
      ((tours.filter validCoord).map mkEntry).map (fun m => MarkerAction.create m.contentid),
      rfl, ?_, ?_, ?_⟩
    · intro m hm
      exact List.mem_map_of_mem _ hm
    · intro a ha
      obtain ⟨m, _, rfl⟩ := List.mem_map.mp ha
      exact ⟨m.contentid, rfl⟩
    · intro a ha
      obtain ⟨m, _, rfl⟩ := List.mem_map.mp ha
      exact ⟨m.contentid, rfl⟩

/-- Witness for C2: a valid-coordinate record of the new set has its marker
in the resulting collection. -/
theorem renderMarkers_replace_spec_witness :
    mkEntry (TourItem.mk "1" "12" "t" "a" "127" "37") ∈
      (renderMarkersEffect true (MapState.mk (.fin 0, .fin 0) 10 [MarkerEntry.mk "9" (.fin 1) (.fin 2)] none)
        [TourItem.mk "1" "12" "t" "a" "127" "37"]).1.markers :=
  (renderMarkers_replace_spec
      (MapState.mk (.fin 0, .fin 0) 10 [MarkerEntry.mk "9" (.fin 1) (.fin 2)] none)
      [TourItem.mk "1" "12" "t" "a" "127" "37"]).1
    (TourItem.mk "1" "12" "t" "a" "127" "37") (by simp)
    (by simp only [validCoord, toWgs84_str_127_37]; rfl)

/-- C1 counterexample: with pre-event zoom 18 and the selected id present
in the marker map, the selection effect of `src/components/naver-map.tsx`
sets the zoom to exactly 15, strictly decreasing the pre-event zoom, so
the post-event zoom is not always ≥ the pre-event zoom. -/
theorem selectTour_zoom_decrease_cex :
    markerMapGet (MapState.mk (.fin 0, .fin 0) 18 [MarkerEntry.mk "1" (.fin 37) (.fin 127)] none).markers "1"
        = some (MarkerEntry.mk "1" (.fin 37) (.fin 127)) ∧
    (selectTourEffect true (MapState.mk (.fin 0, .fin 0) 18 [MarkerEntry.mk "1" (.fin 37) (.fin 127)] none)
        (some "1")).zoom
      < (MapState.mk (.fin 0, .fin 0) 18 [MarkerEntry.mk "1" (.fin 37) (.fin 127)] none).zoom := by
  refine ⟨rfl, ?_⟩
  have h15 : (selectTourEffect true
      (MapState.mk (.fin 0, .fin 0) 18 [MarkerEntry.mk "1" (.fin 37) (.fin 127)] none)
      (some "1")).zoom = 15 := rfl
  rw [h15]
  norm_num

/-- C1 amended: when the selected id has a marker, the primary component
sets the center to the marker's coordinate, sets the zoom to exactly the
fixed close-up level 15 (which can decrease a higher pre-event zoom), and
opens the info overlay anchored to that marker; the alternate component
version instead sets the zoom to `max(pre-event zoom, 15)`, which is ≥ 15
and never decreases the pre-event zoom. -/
theorem selectTour_center_zoom_overlay :
    (∀ (st : MapState) (id : String) (m : MarkerEntry),
        markerMapGet st.markers id = some m →
        selectTourEffect true st (some id) =
          { st with center := (m.lat, m.lng), zoom := 15, overlay := some m.contentid }) ∧
    (∀ (st : MapState) (tours : List TourItem) (id : String) (tour : TourItem) (g l : ℚ),
        tours.find? (fun t => t.contentid == id) = some tour →
        convertKATECToWGS84 tour.mapx tour.mapy = (.fin g, .fin l) →
        g ≠ 0 → l ≠ 0 →
        (selectTourEffectAlt st tours (some id)).center = (.fin l, .fin g) ∧
        (selectTourEffectAlt st tours (some id)).zoom = max st.zoom 15 ∧
        st.zoom ≤ (selectTourEffectAlt st tours (some id)).zoom ∧
        15 ≤ (selectTourEffectAlt st tours (some id)).zoom) := by
  constructor
  · intro st id m h
    simp [selectTourEffect, h]
  · intro st tours id tour g l hfind hconv hg hl
    have hguard : (jsIsNaN (.fin g) || jsIsNaN (.fin l) ||
        jsEqZero (.fin g) || jsEqZero (.fin l)) = false := by
      simp [jsIsNaN, jsEqZero_fin, hg, hl]
    have hstate : (selectTourEffectAlt st tours (some id)).center = (.fin l, .fin g) ∧
        (selectTourEffectAlt st tours (some id)).zoom = max st.zoom 15 := by
      simp only [selectTourEffectAlt, hfind, hconv]
      rw [if_neg (by rw [hguard]; exact Bool.false_ne_true)]
      cases hm : st.markers.find? (fun m =>
          jsLt (jsAbs (jsSub m.lat (.fin l))) (.fin (1/10000)) &&
          jsLt (jsAbs (jsSub m.lng (.fin g))) (.fin (1/10000))) <;>
        simp [hm]
    exact ⟨hstate.1, hstate.2, hstate.2 ▸ le_max_left _ _, hstate.2 ▸ le_max_right _ _⟩

/-- Witness for C1 (amended) on concrete states: a present marker in the
primary version, and a found record with valid coordinates in the
alternate version. -/
theorem selectTour_center_zoom_overlay_witness :
    selectTourEffect true (MapState.mk (.fin 0, .fin 0) 18 [MarkerEntry.mk "1" (.fin 37) (.fin 127)] none)
        (some "1")
      = MapState.mk (.fin 37, .fin 127) 15 [MarkerEntry.mk "1" (.fin 37) (.fin 127)] (some "1") ∧
    ((selectTourEffectAlt (MapState.mk (.fin 0, .fin 0) 18 [] none)
        [TourItem.mk "1" "12" "t" "a" "127" "37"] (some "1")).center = (.fin 37, .fin 127) ∧
      (selectTourEffectAlt (MapState.mk (.fin 0, .fin 0) 18 [] none)
        [TourItem.mk "1" "12" "t" "a" "127" "37"] (some "1")).zoom = max 18 15 ∧
      (18 : ℚ) ≤ (selectTourEffectAlt (MapState.mk (.fin 0, .fin 0) 18 [] none)
        [TourItem.mk "1" "12" "t" "a" "127" "37"] (some "1")).zoom ∧
      (15 : ℚ) ≤ (selectTourEffectAlt (MapState.mk (.fin 0, .fin 0) 18 [] none)
        [TourItem.mk "1" "12" "t" "a" "127" "37"] (some "1")).zoom) :=
  ⟨selectTour_center_zoom_overlay.1
      (MapState.mk (.fin 0, .fin 0) 18 [MarkerEntry.mk "1" (.fin 37) (.fin 127)] none) "1"
      (MarkerEntry.mk "1" (.fin 37) (.fin 127)) rfl,
    selectTour_center_zoom_overlay.2 (MapState.mk (.fin 0, .fin 0) 18 [] none)
      [TourItem.mk "1" "12" "t" "a" "127" "37"] "1" (TourItem.mk "1" "12" "t" "a" "127" "37")
      127 37 rfl
      (by show ((toWgs84FromKTO (.str "127") (.str "37")).lng,
            (toWgs84FromKTO (.str "127") (.str "37")).lat) = (JSNum.fin 127, JSNum.fin 37)
          rw [toWgs84_str_127_37])
      (by norm_num) (by norm_num)⟩
